import Mathlib

/-!
Formal model of the image fetcher in `src/request_py.py`.

Pure fragments of the Python code are translated as Lean functions; the
HTTP transport is a function argument, and the target directory is an
explicit list of entries threaded through the pipeline.  Library routines
used by the source (`str` methods, `hashlib.md5`, `urllib.parse.unquote`,
`urllib.parse.urlparse`, `os.path.basename`, `requests`) are modelled as
executable Lean functions, each documented at its definition; string
operations are written by structural recursion on the character list so
that every definition evaluates inside the kernel.
-/

/-- One entry of the target directory: its name, whether it is a regular
file (`os.path.isfile`), whether opening and reading it succeeds
(`readable = false` models the `IOError` branch of `is_duplicate_image`),
and its byte content. -/
structure DirEntry where
  name : String
  isFile : Bool
  readable : Bool
  content : List Nat
  deriving DecidableEq

/-- Character-level test that `s` starts with `p`; model of
`str.startswith`. -/
def charsStartWith : List Char → List Char → Bool
  | _, [] => true
  | [], _ :: _ => false
  | c :: cs, p :: ps => c == p && charsStartWith cs ps

/-- Model of `s.startswith(p)`. -/
def pyStartsWith (s p : String) : Bool :=
  charsStartWith s.data p.data

/-- Model of `str.lower()` on the ASCII range. -/
def pyLower (s : String) : String :=
  String.mk (s.data.map Char.toLower)

/-- Model of `s.split(sep)[0]`: the characters before the first `sep`. -/
def beforeFirst (sep : Char) (s : String) : String :=
  String.mk (s.data.takeWhile fun c => c != sep)

/-- Characters after the first `sep` (everything when `sep` is absent is
dropped together with the whole string, giving `""`). -/
def afterFirst (sep : Char) (s : String) : String :=
  String.mk ((s.data.dropWhile fun c => c != sep).drop 1)

/-- Code points of a string; model of `str.encode()` at the code-point
level (it agrees byte-wise with UTF-8 on ASCII input). -/
def strBytes (s : String) : List Nat :=
  s.data.map Char.toNat

/-- Deterministic stand-in for the MD5 digest of a byte sequence, folded
into a 128-bit number.  The development uses only that the digest is a
total deterministic function of the bytes, never the concrete formula. -/
def md5Nat (bytes : List Nat) : Nat :=
  bytes.foldl (fun h b => (h * 131 + b % 256 + 1) % (2 ^ 128)) 5381

/-- Fixed-width lowercase hexadecimal rendering, most significant digit
first. -/
def toHexFixed : Nat → Nat → List Char
  | 0, _ => []
  | k + 1, n => toHexFixed k (n / 16) ++ [Nat.digitChar (n % 16)]

/-- Model of `hashlib.md5(bytes).hexdigest()`: a 32-character lowercase
hexadecimal string determined by the bytes. -/
def md5hexBytes (bytes : List Nat) : String :=
  String.mk (toHexFixed 32 (md5Nat bytes))

/-- Model of `hashlib.md5(url.encode()).hexdigest()`. -/
def md5hexStr (s : String) : String :=
  md5hexBytes (strBytes s)

/-- Python string slicing `s[:n]`, by characters. -/
def strTake (s : String) (n : Nat) : String :=
  String.mk (s.data.take n)

/-- Value of a hexadecimal digit character, if any. -/
def hexVal (c : Char) : Option Nat :=
  if '0' ≤ c ∧ c ≤ '9' then some (c.toNat - '0'.toNat)
  else if 'a' ≤ c ∧ c ≤ 'f' then some (c.toNat - 'a'.toNat + 10)
  else if 'A' ≤ c ∧ c ≤ 'F' then some (c.toNat - 'A'.toNat + 10)
  else none

/-- Model of `urllib.parse.unquote` at the single-byte level: each `%xy`
with two hexadecimal digits becomes the character with code `16*x + y`;
malformed escapes are kept verbatim.  (Python additionally reassembles
multi-byte UTF-8 escape runs; every escape appearing in this development
is a single-byte one, where the two coincide.) -/
def unquoteChars : List Char → List Char
  | [] => []
  | '%' :: hc :: lc :: rest =>
    match hexVal hc, hexVal lc with
    | some hv, some lv => Char.ofNat (16 * hv + lv) :: unquoteChars rest
    | _, _ => '%' :: unquoteChars (hc :: lc :: rest)
  | c :: rest => c :: unquoteChars rest

/-- Model of `urllib.parse.unquote` on strings. -/
def unquote (s : String) : String :=
  String.mk (unquoteChars s.data)

/-- Remainder of the character list after the first occurrence of `://`,
if any. -/
def afterSchemeSep : List Char → Option (List Char)
  | [] => none
  | c :: cs =>
    if charsStartWith (c :: cs) [':', '/', '/'] then some (cs.drop 2)
    else afterSchemeSep cs

/-- Model of `urllib.parse.urlparse(url).path` for the URL shapes the
program accepts: the text after the first `://` and after the network
location, stopping at the first `?` or `#`; without `://` the whole
string up to the first `?` or `#` is taken as the path. -/
def urlPath (url : String) : String :=
  match afterSchemeSep url.data with
  | none => String.mk (url.data.takeWhile fun c => c != '?' && c != '#')
  | some after =>
    let fromSlash := after.dropWhile fun c => c != '/' && c != '?' && c != '#'
    String.mk (fromSlash.takeWhile fun c => c != '?' && c != '#')

/-- Model of `os.path.basename` (POSIX): the part after the last `/`. -/
def basename (p : String) : String :=
  String.mk ((p.data.reverse.takeWhile fun c => c != '/').reverse)

/-- Translation of `get_extension_from_content_type`: the fixed mapping
table, looked up after lowercasing; `none` models Python `None`, and the
`ct = ""` test models the falsiness guard `if not content_type`. -/
def get_extension_from_content_type (content_type : Option String) : Option String :=
  match content_type with
  | none => none
  | some ct =>
    if ct = "" then none
    else
      let l := pyLower ct
      if l = "image/jpeg" then some ".jpg"
      else if l = "image/jpg" then some ".jpg"
      else if l = "image/png" then some ".png"
      else if l = "image/gif" then some ".gif"
      else if l = "image/webp" then some ".webp"
      else if l = "image/svg+xml" then some ".svg"
      else if l = "image/bmp" then some ".bmp"
      else if l = "image/tiff" then some ".tiff"
      else none

/-- Translation of `extract_filename`. -/
def extract_filename (url : String) (content_type : Option String) : String :=
  let path := unquote (urlPath url)
  let filename := basename path
  if filename = "" ∨ '.' ∉ filename.data ∨ filename.length < 3 then
    let url_hash := strTake (md5hexStr url) 8
    let extension := (get_extension_from_content_type content_type).getD ".jpg"
    "ubuntu_image_" ++ url_hash ++ extension
  else if '%' ∈ filename.data then
    unquote filename
  else
    filename

/-- Directory scan of `is_duplicate_image`, one step per name returned by
`os.listdir`, with the directory state threaded through (the source only
reads it).  A name without an entry, or whose entry fails the
`os.path.isfile` guard, is skipped; an unreadable file is skipped by the
`except IOError: continue` branch; otherwise the file's digest is
compared with the candidate digest `h`. -/
def dupScanNames (h : String) : List String → List DirEntry → Option String × List DirEntry
  | [], fs => (none, fs)
  | n :: rest, fs =>
    match fs.find? (fun e => e.name == n) with
    | some e =>
      if e.isFile then
        if e.readable then
          if md5hexBytes e.content == h then (some n, fs)
          else dupScanNames h rest fs
        else dupScanNames h rest fs
      else dupScanNames h rest fs
    | none => dupScanNames h rest fs

/-- Translation of `is_duplicate_image`: the Python pair `(False, None)` /
`(True, existing_file)` is modelled as an `Option String`, paired with the
directory state after the scan. -/
def is_duplicate_image (dir : List DirEntry) (content : List Nat) :
    Option String × List DirEntry :=
  dupScanNames (md5hexBytes content) (dir.map DirEntry.name) dir

/-- Model of `open(os.path.join(directory, n), 'wb'); f.write(content)`
on the top-level directory state.  A name without a path separator is a
flat entry of the directory: an existing regular file of that name is
truncated and rewritten, a fresh name is created at the end of the
listing, and opening a non-file entry of that name fails (`IOError`),
reported as `none`.  A name containing `/` is resolved through `join`
into a nested path the top-level listing never shows: when its first
segment is an existing subdirectory and the remainder is a single
segment, the nested write succeeds and leaves the top-level listing
unchanged; a missing subdirectory (`FileNotFoundError`), a regular file
in the way (`NotADirectoryError`), a trailing separator
(`IsADirectoryError`), and paths nested deeper than this one-level model
tracks are all reported as `none` (the source catches each as
`IOError`). -/
def writeFile (fs : List DirEntry) (n : String) (content : List Nat) :
    Option (List DirEntry) :=
  if '/' ∈ n.data then
    let first := beforeFirst '/' n
    let rest := afterFirst '/' n
    match fs.find? (fun e => e.name == first) with
    | some e =>
      if e.isFile then none
      else if rest = "" then none
      else if '/' ∈ rest.data then none
      else some fs
    | none => none
  else
    match fs.find? (fun e => e.name == n) with
    | some e =>
      if e.isFile then
        some (fs.map fun e' =>
          if e'.name == n then { e' with readable := true, content := content } else e')
      else none
    | none => some (fs ++ [⟨n, true, true, content⟩])

/-- Outcome of the `requests.get` collaborator: a response with status,
headers and body bytes, or a raised `RequestException` (connection
failure, DNS failure, timeout). -/
inductive HttpResult where
  | success (status : Nat) (headers : List (String × String)) (body : List Nat)
  | requestError (msg : String)
  deriving DecidableEq

/-- Model of the case-insensitive `response.headers.get(key)` lookup of
the `requests` library. -/
def headerGet (headers : List (String × String)) (key : String) : Option String :=
  (headers.find? fun kv => pyLower kv.1 == pyLower key).map Prod.snd

/-- Observable outcome of one `download_image` call: the boolean return
value of the source, refined by the status line it prints. -/
inductive FetchResult where
  | invalidScheme
  | transportError (msg : String)
  | httpStatusError (status : Nat)
  | notAnImage (contentType : String)
  | duplicate (existingFile : String)
  | saved (filename : String)
  | writeError
  deriving DecidableEq

/-- The boolean value `download_image` returns for each outcome. -/
def FetchResult.success : FetchResult → Bool
  | .duplicate _ => true
  | .saved _ => true
  | _ => false

/-- Translation of `download_image`.  `http` is the `requests.get`
collaborator; `response.raise_for_status()` raises exactly for status
codes 400–599, and the raised `HTTPError` is caught by the same
`RequestException` handler as transport failures.  The result pairs the
reported outcome with the directory state after the call. -/
def download_image (http : String → HttpResult) (url : String)
    (dir : List DirEntry) : FetchResult × List DirEntry :=
  if pyStartsWith url "http://" || pyStartsWith url "https://" then
    match http url with
    | .requestError msg => (.transportError msg, dir)
    | .success status headers body =>
      if 400 ≤ status ∧ status < 600 then (.httpStatusError status, dir)
      else
        let content_type := beforeFirst ';' ((headerGet headers "Content-Type").getD "")
        if pyStartsWith content_type "image/" then
          let filename := extract_filename url (some content_type)
          match is_duplicate_image dir body with
          | (some existing, dir') => (.duplicate existing, dir')
          | (none, dir') =>
            match writeFile dir' filename body with
            | some dir'' => (.saved filename, dir'')
            | none => (.writeError, dir')
        else (.notAnImage content_type, dir)
  else (.invalidScheme, dir)

/-- Spec-derived predicate (for claim C6), stated from the spec's words:
"usable as a single filesystem entry name on the target directory" — a
non-empty name that is not a dot entry and contains no path separator. -/
def usable_entry_name (s : String) : Bool :=
  s != "" && s != "." && s != ".." && !(s.data.contains '/')

/-- Lowercase hexadecimal digit test, matching the alphabet
`Nat.digitChar` emits for values below 16. -/
def isHexDigit (c : Char) : Bool :=
  decide (('0' ≤ c ∧ c ≤ '9') ∨ ('a' ≤ c ∧ c ≤ 'f'))

/-- Characters of a Python slice `s[:n]`. -/
theorem strTake_data (s : String) (n : Nat) : (strTake s n).data = s.data.take n := rfl

/-- Characters of the URL digest string. -/
theorem md5hexStr_data (s : String) :
    (md5hexStr s).data = toHexFixed 32 (md5Nat (strBytes s)) := rfl

/-- Every digit `Nat.digitChar` produces below 16 is a lowercase
hexadecimal digit. -/
theorem digitChar_isHex : ∀ m < 16, isHexDigit (Nat.digitChar m) = true := by decide

/-- The fixed-width rendering has exactly the requested width. -/
theorem toHexFixed_length (k : Nat) : ∀ n : Nat, (toHexFixed k n).length = k := by
  induction k with
  | zero => intro n; rfl
  | succ k ih => intro n; simp [toHexFixed, ih]

/-- Every character of the fixed-width rendering is a hexadecimal
digit. -/
theorem toHexFixed_isHex (k : Nat) : ∀ (n : Nat), ∀ c ∈ toHexFixed k n, isHexDigit c = true := by
  induction k with
  | zero => intro n c hc; simp [toHexFixed] at hc
  | succ k ih =>
    intro n c hc
    simp only [toHexFixed, List.mem_append, List.mem_singleton] at hc
    rcases hc with hc | hc
    · exact ih _ c hc
    · subst hc
      exact digitChar_isHex _ (Nat.mod_lt _ (by norm_num))

/-- C2: a URL that starts with neither "http://" nor "https://" is
rejected with the invalid-scheme outcome before anything else happens:
the directory is untouched, the outcome is the same for every HTTP
collaborator (so the network is never consulted), and the call reports
failure. -/
theorem invalid_scheme_rejected (url : String) (dir : List DirEntry)
    (h1 : pyStartsWith url "http://" = false)
    (h2 : pyStartsWith url "https://" = false) :
    (∀ http, download_image http url dir = (.invalidScheme, dir)) ∧
    (∀ http http', download_image http url dir = download_image http' url dir) ∧
    FetchResult.success .invalidScheme = false := by
  refine ⟨fun http => ?_, fun http http' => ?_, rfl⟩ <;>
    simp [download_image, h1, h2]

/-- Witness for C2 at the concrete URL "ftp://example.com/cat.png". -/
theorem invalid_scheme_rejected_witness :
    download_image (fun _ => HttpResult.requestError "down") "ftp://example.com/cat.png" [] =
      (FetchResult.invalidScheme, []) :=
  (invalid_scheme_rejected "ftp://example.com/cat.png" [] (by decide) (by decide)).1
    (fun _ => HttpResult.requestError "down")

/-- C3: a response whose content type — the header value before any `;`
parameter — does not start with "image/" never leads to a success and
never changes the directory; when the URL scheme is valid and the status
is not an HTTP error, the reported outcome is exactly `notAnImage`. -/
theorem non_image_content_rejected (http : String → HttpResult) (url : String)
    (dir : List DirEntry) (st : Nat) (hd : List (String × String)) (body : List Nat)
    (hresp : http url = .success st hd body)
    (hct : pyStartsWith (beforeFirst ';' ((headerGet hd "Content-Type").getD "")) "image/" = false) :
    FetchResult.success (download_image http url dir).1 = false ∧
    (download_image http url dir).2 = dir ∧
    ((pyStartsWith url "http://" || pyStartsWith url "https://") = true →
      ¬(400 ≤ st ∧ st < 600) →
      download_image http url dir =
        (.notAnImage (beforeFirst ';' ((headerGet hd "Content-Type").getD "")), dir)) := by
  by_cases hs : (pyStartsWith url "http://" || pyStartsWith url "https://") = true
  · by_cases h4 : 400 ≤ st ∧ st < 600
    · simp [download_image, hs, hresp, h4, FetchResult.success]
    · simp [download_image, hs, hresp, h4, hct, FetchResult.success]
  · simp [download_image, hs, FetchResult.success]

/-- Witness for C3 at a concrete "text/html; charset=utf-8" response. -/
theorem non_image_content_rejected_witness :
    FetchResult.success (download_image
        (fun _ => HttpResult.success 200 [("Content-Type", "text/html; charset=utf-8")] [1, 2])
        "http://example.com/page" []).1 = false ∧
    (download_image
        (fun _ => HttpResult.success 200 [("Content-Type", "text/html; charset=utf-8")] [1, 2])
        "http://example.com/page" []).2 = [] ∧
    ((pyStartsWith "http://example.com/page" "http://" ||
        pyStartsWith "http://example.com/page" "https://") = true →
      ¬(400 ≤ 200 ∧ 200 < 600) →
      download_image
          (fun _ => HttpResult.success 200 [("Content-Type", "text/html; charset=utf-8")] [1, 2])
          "http://example.com/page" [] =
        (.notAnImage (beforeFirst ';'
            ((headerGet [("Content-Type", "text/html; charset=utf-8")] "Content-Type").getD "")), [])) :=
  non_image_content_rejected _ "http://example.com/page" [] 200
    [("Content-Type", "text/html; charset=utf-8")] [1, 2] rfl (by decide)

/-- C9: a response with no Content-Type header at all is handled as
content type "" — it is rejected as not an image, the call reports
failure, and no file is written. -/
theorem missing_content_type_rejected (http : String → HttpResult) (url : String)
    (dir : List DirEntry) (st : Nat) (hd : List (String × String)) (body : List Nat)
    (hresp : http url = .success st hd body)
    (hhdr : headerGet hd "Content-Type" = none) :
    FetchResult.success (download_image http url dir).1 = false ∧
    (download_image http url dir).2 = dir ∧
    ((pyStartsWith url "http://" || pyStartsWith url "https://") = true →
      ¬(400 ≤ st ∧ st < 600) →
      download_image http url dir = (.notAnImage "", dir)) := by
  by_cases hs : (pyStartsWith url "http://" || pyStartsWith url "https://") = true
  · by_cases h4 : 400 ≤ st ∧ st < 600
    · simp [download_image, hs, hresp, h4, FetchResult.success]
    · have hb : beforeFirst ';' "" = "" := by decide
      have h0 : pyStartsWith "" "image/" = false := by decide
      simp [download_image, hs, hresp, h4, hhdr, hb, h0, FetchResult.success]
  · simp [download_image, hs, FetchResult.success]

/-- Witness for C9 at a concrete header-free response. -/
theorem missing_content_type_rejected_witness :
    FetchResult.success (download_image
        (fun _ => HttpResult.success 200 [("Server", "nginx")] [1, 2])
        "http://example.com/a.png" []).1 = false ∧
    (download_image (fun _ => HttpResult.success 200 [("Server", "nginx")] [1, 2])
        "http://example.com/a.png" []).2 = [] ∧
    ((pyStartsWith "http://example.com/a.png" "http://" ||
        pyStartsWith "http://example.com/a.png" "https://") = true →
      ¬(400 ≤ 200 ∧ 200 < 600) →
      download_image (fun _ => HttpResult.success 200 [("Server", "nginx")] [1, 2])
          "http://example.com/a.png" [] = (.notAnImage "", [])) :=
  missing_content_type_rejected _ "http://example.com/a.png" [] 200
    [("Server", "nginx")] [1, 2] rfl (by decide)

/-- C4 (amended): a response whose status code lies in 400–599 — the
exact range `raise_for_status` raises for — is rejected with the HTTP
status error outcome, the call reports failure, and the directory is
unchanged. -/
theorem http_error_status_rejected (http : String → HttpResult) (url : String)
    (dir : List DirEntry) (st : Nat) (hd : List (String × String)) (body : List Nat)
    (hs : (pyStartsWith url "http://" || pyStartsWith url "https://") = true)
    (hresp : http url = .success st hd body)
    (h4 : 400 ≤ st) (h6 : st < 600) :
    download_image http url dir = (.httpStatusError st, dir) ∧
    FetchResult.success (download_image http url dir).1 = false := by
  simp [download_image, hs, hresp, h4, h6, FetchResult.success]

/-- Witness for the amended C4 at a concrete 404 response. -/
theorem http_error_status_rejected_witness :
    download_image (fun _ => HttpResult.success 404 [("Content-Type", "image/png")] [9])
        "http://example.com/cat.png" [] = (.httpStatusError 404, []) ∧
    FetchResult.success (download_image
        (fun _ => HttpResult.success 404 [("Content-Type", "image/png")] [9])
        "http://example.com/cat.png" []).1 = false :=
  http_error_status_rejected _ "http://example.com/cat.png" [] 404
    [("Content-Type", "image/png")] [9] (by decide) rfl (by decide) (by decide)

/-- C4 counterexample: status 304 is outside the 2xx range, yet the code
proceeds (`raise_for_status` raises only for 400–599), writes the file
and reports success — refuting the claim that every non-2xx response
yields failure with no file written. -/
theorem non_2xx_not_always_rejected :
    ¬(200 ≤ 304 ∧ 304 < 300) ∧
    FetchResult.success (download_image
        (fun _ => HttpResult.success 304 [("Content-Type", "image/png")] [1, 2, 3])
        "http://example.com/a.png" []).1 = true ∧
    (download_image (fun _ => HttpResult.success 304 [("Content-Type", "image/png")] [1, 2, 3])
        "http://example.com/a.png" []).2 = [⟨"a.png", true, true, [1, 2, 3]⟩] := by
  decide

/-- C7: name resolution is deterministic — two calls with identical
arguments return an identical string. -/
theorem resolve_name_deterministic (u₁ u₂ : String) (c₁ c₂ : Option String)
    (hu : u₁ = u₂) (hc : c₁ = c₂) :
    extract_filename u₁ c₁ = extract_filename u₂ c₂ := by
  rw [hu, hc]

/-- Witness for C7 at a concrete URL and content type. -/
theorem resolve_name_deterministic_witness :
    extract_filename "http://example.com/pics/cat.png" (some "image/png") =
      extract_filename "http://example.com/pics/cat.png" (some "image/png") :=
  resolve_name_deterministic _ _ _ _ rfl rfl

/-- A non-empty character list stays non-empty under percent-decoding. -/
theorem unquoteChars_ne_nil (c : Char) (cs : List Char) : unquoteChars (c :: cs) ≠ [] := by
  unfold unquoteChars
  split
  · simp_all
  · split <;> simp
  · simp

/-- C5 (amended): when the last path segment is rejected (empty, without
a dot, or shorter than 3 characters), the resolved name is
`ubuntu_image_<hash8><ext>`, where `<hash8>` is the 8-character prefix of
the hexadecimal URL digest — 8 hexadecimal digits — and `<ext>` is the
content-type extension, defaulting to ".jpg". -/
theorem fallback_name_shape (url : String) (ct : Option String)
    (hrej : basename (unquote (urlPath url)) = "" ∨
      '.' ∉ (basename (unquote (urlPath url))).data ∨
      (basename (unquote (urlPath url))).length < 3) :
    extract_filename url ct =
      "ubuntu_image_" ++ strTake (md5hexStr url) 8 ++
        (get_extension_from_content_type ct).getD ".jpg" ∧
    (strTake (md5hexStr url) 8).length = 8 ∧
    ∀ c ∈ (strTake (md5hexStr url) 8).data, isHexDigit c = true := by
  refine ⟨?_, ?_, ?_⟩
  · simp only [extract_filename]
    rw [if_pos hrej]
  · show ((md5hexStr url).data.take 8).length = 8
    rw [List.length_take]
    show min 8 (toHexFixed 32 (md5Nat (strBytes url))).length = 8
    rw [toHexFixed_length]
    decide
  · intro c hc
    rw [strTake_data, md5hexStr_data] at hc
    exact toHexFixed_isHex 32 (md5Nat (strBytes url)) c (List.mem_of_mem_take hc)

/-- Witness for the amended C5 at the concrete URL
"https://example.com/a/" with no content type. -/
theorem fallback_name_shape_witness :
    extract_filename "https://example.com/a/" none =
      "ubuntu_image_" ++ strTake (md5hexStr "https://example.com/a/") 8 ++
        (get_extension_from_content_type none).getD ".jpg" ∧
    (strTake (md5hexStr "https://example.com/a/") 8).length = 8 ∧
    ∀ c ∈ (strTake (md5hexStr "https://example.com/a/") 8).data, isHexDigit c = true :=
  fallback_name_shape "https://example.com/a/" none (by decide)

/-- C5 counterexample: at a URL whose final path segment is empty the
code synthesizes a name with the "ubuntu_image_" head, so the result is
not of the claimed form `image_<hashprefix><extension>` — any string of
that form would start with "image_", and this one does not. -/
theorem fallback_name_not_image_form :
    (basename (unquote (urlPath "https://example.com/a/")) = "" ∨
      '.' ∉ (basename (unquote (urlPath "https://example.com/a/"))).data ∨
      (basename (unquote (urlPath "https://example.com/a/"))).length < 3) ∧
    pyStartsWith (extract_filename "https://example.com/a/" none) "image_" = false ∧
    pyStartsWith (extract_filename "https://example.com/a/" none) "ubuntu_image_" = true := by
  decide

/-- C6 (amended): the resolved name is always a non-empty string.  (Its
suitability as a single directory entry name can fail — see the
counterexample — when the accepted segment double-decodes to a path
separator.) -/
theorem resolved_name_nonempty (url : String) (ct : Option String) :
    0 < (extract_filename url ct).length := by
  simp only [extract_filename]
  split
  · show 0 < ("ubuntu_image_" ++ strTake (md5hexStr url) 8 ++
      (get_extension_from_content_type ct).getD ".jpg").length
    rw [String.length_append, String.length_append]
    have h13 : ("ubuntu_image_" : String).length = 13 := rfl
    omega
  case isFalse hne =>
    push_neg at hne
    obtain ⟨h1, -, -⟩ := hne
    have hdata : (basename (unquote (urlPath url))).data ≠ [] := by
      intro hnil
      exact h1 (String.ext hnil)
    split
    · show 0 < (unquote (basename (unquote (urlPath url)))).length
      show 0 < (unquoteChars (basename (unquote (urlPath url))).data).length
      rcases hcs : (basename (unquote (urlPath url))).data with - | ⟨c, cs⟩
      · exact absurd hcs hdata
      · exact List.length_pos.mpr (unquoteChars_ne_nil c cs)
    · show 0 < (basename (unquote (urlPath url))).length
      show 0 < (basename (unquote (urlPath url))).data.length
      exact List.length_pos.mpr hdata

/-- C6 counterexample: a URL whose accepted final segment contains a
doubly percent-encoded slash resolves to "x/y.png", which contains a path
separator and therefore is not usable as a single filesystem entry name
in the target directory. -/
theorem resolved_name_not_always_usable :
    extract_filename "http://h/a/x%252fy.png" none = "x/y.png" ∧
    usable_entry_name "x/y.png" = false := by
  decide

/-- The duplicate scan threads the directory state through unchanged. -/
theorem dupScanNames_state (h : String) (ns : List String) (fs : List DirEntry) :
    (dupScanNames h ns fs).2 = fs := by
  induction ns with
  | nil => rfl
  | cons n rest ih =>
    simp only [dupScanNames]
    split
    · split
      · split
        · split
          · rfl
          · exact ih
        · exact ih
      · exact ih
    · exact ih

/-- C10: the duplicate scan is read-only — the directory state after
`is_duplicate_image` is exactly the state before the call, so the scan
creates, deletes and modifies no file. -/
theorem duplicate_scan_read_only (dir : List DirEntry) (content : List Nat) :
    (is_duplicate_image dir content).2 = dir :=
  dupScanNames_state (md5hexBytes content) (dir.map DirEntry.name) dir

/-- A scanned name that resolves to an unreadable regular file is skipped:
removing it from the scanned name list does not change the scan. -/
theorem scan_skip_name {h bn : String} {fs : List DirEntry} {bad : DirEntry}
    (hfind : fs.find? (fun e => e.name == bn) = some bad)
    (hf : bad.isFile = true) (hr : bad.readable = false) :
    ∀ ns₁ ns₂ : List String,
      dupScanNames h (ns₁ ++ bn :: ns₂) fs = dupScanNames h (ns₁ ++ ns₂) fs := by
  intro ns₁
  induction ns₁ with
  | nil =>
    intro ns₂
    simp only [List.nil_append, dupScanNames, hfind, hf, hr]
    simp
  | cons m ns₁ ih =>
    intro ns₂
    simp only [List.cons_append, dupScanNames]
    cases hfind2 : fs.find? (fun e => e.name == m) with
    | none => simp only [hfind2]; exact ih ns₂
    | some e =>
      simp only [hfind2]
      by_cases hf2 : e.isFile = true
      · by_cases hr2 : e.readable = true
        · by_cases hb2 : (md5hexBytes e.content == h) = true
          · simp [hf2, hr2, hb2]
          · simp [hf2, hr2, hb2, ih ns₂]
        · simp [hf2, hr2, ih ns₂]
      · simp [hf2, ih ns₂]

/-- Two directory states in which every scanned name resolves alike give
scans with the same reported duplicate. -/
theorem scan_agree {h : String} : ∀ (ns : List String) (fs fs' : List DirEntry),
    (∀ n ∈ ns, fs.find? (fun e => e.name == n) = fs'.find? (fun e => e.name == n)) →
    (dupScanNames h ns fs).1 = (dupScanNames h ns fs').1 := by
  intro ns
  induction ns with
  | nil => intro fs fs' _; rfl
  | cons m rest ih =>
    intro fs fs' hagree
    have htail : ∀ n ∈ rest, fs.find? (fun e => e.name == n) = fs'.find? (fun e => e.name == n) :=
      fun n hn => hagree n (List.mem_cons_of_mem _ hn)
    simp only [dupScanNames]
    rw [hagree m (List.mem_cons_self _ _)]
    cases hfind : fs'.find? (fun e => e.name == m) with
    | none =>
      simp only [hfind]
      exact ih fs fs' htail
    | some e =>
      simp only [hfind]
      by_cases hf : e.isFile = true
      · by_cases hr : e.readable = true
        · by_cases hb : (md5hexBytes e.content == h) = true
          · simp [hf, hr, hb]
          · simp [hf, hr, hb]
            exact ih fs fs' htail
        · simp [hf, hr]
          exact ih fs fs' htail
      · simp [hf]
        exact ih fs fs' htail

/-- Name lookup ignores a removed middle entry whose name differs. -/
theorem find?_name_middle (pre post : List DirEntry) (bad : DirEntry) (n : String)
    (hn : n ≠ bad.name) :
    (pre ++ bad :: post).find? (fun e => e.name == n)
      = (pre ++ post).find? (fun e => e.name == n) := by
  have hb : (bad.name == n) = false := by
    cases hbe : (bad.name == n)
    · rfl
    · exact absurd (eq_of_beq hbe).symm hn
  have h2 : (bad :: post).find? (fun e => e.name == n)
      = post.find? (fun e => e.name == n) := by
    simp [List.find?, hb]
  rw [List.find?_append, List.find?_append, h2]

/-- C8: a read error on one existing regular file does not abort the
duplicate scan — with distinct entry names, the scan of a directory
containing an unreadable file reports exactly what the scan without that
file reports, so a matching file elsewhere is still found. -/
theorem unreadable_file_skipped (pre post : List DirEntry) (bad : DirEntry)
    (c : List Nat) (hf : bad.isFile = true) (hr : bad.readable = false)
    (hnodup : ((pre ++ bad :: post).map DirEntry.name).Nodup) :
    (is_duplicate_image (pre ++ bad :: post) c).1 = (is_duplicate_image (pre ++ post) c).1 := by
  have hnames : (pre ++ bad :: post).map DirEntry.name
      = pre.map DirEntry.name ++ bad.name :: post.map DirEntry.name := by simp
  have hnames' : (pre ++ post).map DirEntry.name
      = pre.map DirEntry.name ++ post.map DirEntry.name := by simp
  rw [hnames] at hnodup
  have hsplit := List.nodup_append.mp hnodup
  have hbadpre : bad.name ∉ pre.map DirEntry.name := by
    intro hmem
    exact hsplit.2.2 hmem (List.mem_cons_self _ _)
  have hbadpost : bad.name ∉ post.map DirEntry.name := (List.nodup_cons.mp hsplit.2.1).1
  have hfindbad : (pre ++ bad :: post).find? (fun e => e.name == bad.name) = some bad := by
    have hpre : pre.find? (fun e => e.name == bad.name) = none := by
      rw [List.find?_eq_none]
      intro e he hbe
      exact hbadpre (by
        rw [← eq_of_beq hbe]
        exact List.mem_map_of_mem DirEntry.name he)
    rw [List.find?_append, hpre]
    simp [List.find?]
  have hother : ∀ n ∈ pre.map DirEntry.name ++ post.map DirEntry.name,
      (pre ++ bad :: post).find? (fun e => e.name == n)
        = (pre ++ post).find? (fun e => e.name == n) := by
    intro n hn
    apply find?_name_middle
    intro hEq
    rcases List.mem_append.mp hn with hh | hh
    · exact hbadpre (hEq ▸ hh)
    · exact hbadpost (hEq ▸ hh)
  unfold is_duplicate_image
  rw [hnames, hnames']
  rw [scan_skip_name hfindbad hf hr (pre.map DirEntry.name) (post.map DirEntry.name)]
  exact scan_agree _ _ _ hother

/-- Witness for C8 at a concrete directory: an unreadable "bad.png" sits
between a non-matching and a matching file; both scans report the
matching "b.png". -/
theorem unreadable_file_skipped_witness :
    (is_duplicate_image
        [⟨"a.png", true, true, [7]⟩, ⟨"bad.png", true, false, [1, 2]⟩,
          ⟨"b.png", true, true, [1, 2]⟩] [1, 2]).1
      = (is_duplicate_image [⟨"a.png", true, true, [7]⟩, ⟨"b.png", true, true, [1, 2]⟩] [1, 2]).1 :=
  unreadable_file_skipped [⟨"a.png", true, true, [7]⟩] [⟨"b.png", true, true, [1, 2]⟩]
    ⟨"bad.png", true, false, [1, 2]⟩ [1, 2] rfl rfl (by decide)
